import Mathlib

/-!
Shallow embedding of the simulator-manager core of the
`mcp-server-ios-simulator` repository (file `src/simulator/simulator-manager.ts`).

External effects — the appium simulator handle actions and the
`xcrun simctl` CLI invocations — are modelled by explicit world/oracle
records.  Each successive device enumeration the code performs
(`getAllSimulators` re-queries the platform on every call) is one entry of
an `enums` list consumed in call order; an entry of `none` stands for a
listing call that failed or whose output could not be parsed.

Strings are handled at the character-list level (`String.data`) so that all
definitions reduce in the kernel; the JavaScript regular-expression
behaviour used by the source (word boundaries `\b`, whitespace class `\s`,
the UDID shape test) is embedded explicitly for the ASCII range, which is
the range device names and UDIDs occupy.
-/

namespace SimMgr

/-- JavaScript word character class `\w`, i.e. `[A-Za-z0-9_]`. -/
def isWordChar (c : Char) : Bool :=
  c.isAlpha || c.isDigit || c == '_'

/-- JavaScript whitespace class `\s`, restricted to ASCII characters. -/
def jsWS (c : Char) : Bool :=
  c == ' ' || c == '\t' || c == '\n' || c == '\r' || c == '\x0b' || c == '\x0c'

/-- ASCII lowercasing of one character, as `String.prototype.toLowerCase`
acts on the ASCII range. -/
def lowerChar (c : Char) : Char :=
  if 65 ≤ c.toNat && c.toNat ≤ 90 then Char.ofNat (c.toNat + 32) else c

/-- Lowercase a string into its character list. -/
def lowerList (s : String) : List Char :=
  s.data.map lowerChar

/-- Embedding of `replace(/\s+/g, ' ')`: collapse every whitespace run to a
single space (simulator-manager.ts line 180). -/
def collapseWS : List Char → List Char
  | [] => []
  | [c] => if jsWS c then [' '] else [c]
  | a :: b :: rest =>
    if jsWS a && jsWS b then collapseWS (b :: rest)
    else (if jsWS a then ' ' else a) :: collapseWS (b :: rest)

/-- Embedding of `String.prototype.trim`. -/
def trimWS (l : List Char) : List Char :=
  ((l.dropWhile jsWS).reverse.dropWhile jsWS).reverse

/-- The normalized, lowercased device-name pattern built at
simulator-manager.ts line 180:
`deviceName.toLowerCase().replace(/\s+/g, ' ').trim()`.
The subsequent regex-escaping step (line 181) does not change which texts
the literal pattern matches, so it has no counterpart here. -/
def normalizeDeviceName (s : String) : List Char :=
  trimWS (collapseWS (lowerList s))

/-- Whether position `i` of `cs` holds a word character (positions outside
the string count as non-word, as at a JavaScript string edge). -/
def wordCharAt (cs : List Char) (i : Nat) : Bool :=
  match cs.get? i with
  | some c => isWordChar c
  | none => false

/-- JavaScript regex word boundary `\b` at offset `k` of `cs`
(`0 ≤ k ≤ cs.length`): the two sides of the position disagree on
word-character-ness. -/
def boundaryAt (cs : List Char) (k : Nat) : Bool :=
  (if k == 0 then false else wordCharAt cs (k - 1)) != wordCharAt cs k

/-- Embedding of `new RegExp("\\b" + escapedLiteral + "\\b").test(target)`
for a literal pattern `pat`: some occurrence of `pat` in `target` is
flanked by word boundaries on both sides. -/
def wordBoundaryTest (pat target : List Char) : Bool :=
  (List.range (target.length + 1)).any fun i =>
    boundaryAt target i && pat.isPrefixOf (target.drop i) &&
      boundaryAt target (i + pat.length)

/-- Embedding of `String.prototype.includes`: `needle` occurs contiguously
in `hay`. -/
def strIncludes (hay needle : List Char) : Bool :=
  (List.range (hay.length + 1)).any fun i => needle.isPrefixOf (hay.drop i)

/-- ASCII hexadecimal digit, the character class `[0-9A-Fa-f]` reached by
`[0-9A-F]` under the regex `i` flag. -/
def isHexDigit (c : Char) : Bool :=
  c.isDigit || ('A' ≤ c && c ≤ 'F') || ('a' ≤ c && c ≤ 'f')

/-- Split a character list at every dash. -/
def splitDash : List Char → List (List Char)
  | [] => [[]]
  | c :: rest =>
    if c == '-' then [] :: splitDash rest
    else
      match splitDash rest with
      | g :: gs => (c :: g) :: gs
      | [] => [[c]]

/-- Embedding of the anchored UDID shape test of simulator-manager.ts
line 126: `/^[0-9A-F]{8}-([0-9A-F]{4}-){3}[0-9A-F]{12}$/i`.  A string
matches exactly when splitting it at dashes yields groups of sizes
8-4-4-4-12 whose characters are all hexadecimal digits. -/
def udidSyntax (s : String) : Bool :=
  let groups := splitDash s.data
  groups.map List.length == [8, 4, 4, 4, 12] &&
    groups.all fun g => g.all isHexDigit

/-- Device record parsed out of one entry of the `simctl list devices -j`
output (simulator-manager.ts lines 548-556).  `isAvailable` is optional in
the JSON; the source computes availability as `device.isAvailable !== false`. -/
structure RawDevice where
  udid : String
  name : String
  state : String
  isAvailable : Option Bool
deriving DecidableEq

/-- Simulator record of the `SimulatorInfo` interface
(simulator-manager.ts lines 91-97). -/
structure SimulatorInfo where
  udid : String
  name : String
  state : String
  runtime : String
  isAvailable : Bool
deriving DecidableEq

/-- Booted-simulator record of the `BootedSimulator` interface
(simulator-manager.ts lines 83-88). -/
structure BootedSimulator where
  udid : String
  name : String
  state : String
  runtime : String
deriving DecidableEq

/-- Session record of the `SimulatorSession` interface
(simulator-manager.ts lines 72-80); the `simulator` handle's behaviour
lives in the world records, timestamps are abstract naturals. -/
structure SimulatorSession where
  id : String
  udid : String
  deviceName : String
  platformVersion : String
  createdAt : Nat
  lastUsedAt : Nat
deriving DecidableEq

/-- Result of one `xcrun simctl list devices -j` invocation: `none` when
the command failed or its output did not parse, otherwise the devices map,
runtime by runtime. -/
abbrev RawListing := Option (List (String × List RawDevice))

/-- Embedding of `getAllSimulators` (simulator-manager.ts lines 535-565):
flatten the parsed devices map into `SimulatorInfo` records, runtime by
runtime; on any failure return the empty list. -/
def getAllSimulators (raw : RawListing) : List SimulatorInfo :=
  match raw with
  | none => []
  | some devices =>
    (devices.map fun p =>
      p.2.map fun d =>
        SimulatorInfo.mk d.udid d.name d.state p.1 (d.isAvailable != some false)).flatten

/-- Embedding of `getBootedSimulators` (simulator-manager.ts lines
570-589): filter the full enumeration down to `state === 'Booted'`. -/
def getBootedSimulators (raw : RawListing) : List BootedSimulator :=
  ((getAllSimulators raw).filter fun sim => sim.state == "Booted").map fun sim =>
    BootedSimulator.mk sim.udid sim.name sim.state sim.runtime

/-- Result of the `i`-th `getAllSimulators` call of an operation, reading
the `i`-th oracle entry (a missing entry behaves as a failed listing). -/
def enumAt (enums : List RawListing) (i : Nat) : List SimulatorInfo :=
  getAllSimulators (enums.getD i none)

/-- Result of the `i`-th enumeration, filtered to booted devices as
`getBootedSimulators` does. -/
def bootedAt (enums : List RawListing) (i : Nat) : List BootedSimulator :=
  getBootedSimulators (enums.getD i none)

/-- Version constraint shared by all three matching tiers
(simulator-manager.ts lines 167-169, 187-189, 201-203): no platform
version requested, or the requested version occurs in the runtime
identifier verbatim or case-insensitively. -/
def versionMatches (platformVersion : Option String) (sim : SimulatorInfo) : Bool :=
  match platformVersion with
  | none => true
  | some v =>
    strIncludes sim.runtime.data v.data ||
      strIncludes (lowerList sim.runtime) (lowerList v)

/-- Embedding of `findExactNameMatch` (simulator-manager.ts lines
164-172). -/
def findExactNameMatch (simulators : List SimulatorInfo) (deviceName : String)
    (platformVersion : Option String) : Option SimulatorInfo :=
  simulators.find? fun sim =>
    lowerList sim.name == lowerList deviceName &&
      versionMatches platformVersion sim && sim.isAvailable

/-- Embedding of `findWordBoundaryMatch` (simulator-manager.ts lines
178-193): the normalized requested name, taken as a literal regex pattern
between two `\b` word boundaries, is tested against the lowercased device
name. -/
def findWordBoundaryMatch (simulators : List SimulatorInfo) (deviceName : String)
    (platformVersion : Option String) : Option SimulatorInfo :=
  let pat := normalizeDeviceName deviceName
  simulators.find? fun sim =>
    wordBoundaryTest pat (lowerList sim.name) &&
      versionMatches platformVersion sim && sim.isAvailable

/-- Embedding of `findSubstringMatch` (simulator-manager.ts lines
198-207). -/
def findSubstringMatch (simulators : List SimulatorInfo) (deviceName : String)
    (platformVersion : Option String) : Option SimulatorInfo :=
  simulators.find? fun sim =>
    strIncludes (lowerList sim.name) (lowerList deviceName) &&
      versionMatches platformVersion sim && sim.isAvailable

/-- The tiered matching cascade of `createSession` (simulator-manager.ts
lines 134-148): exact name match, then word-boundary match, then substring
match, first hit wins. -/
def findMatchingSimulator (simulators : List SimulatorInfo) (deviceName : String)
    (platformVersion : Option String) : Option SimulatorInfo :=
  match findExactNameMatch simulators deviceName platformVersion with
  | some m => some m
  | none =>
    match findWordBoundaryMatch simulators deviceName platformVersion with
    | some m => some m
    | none => findSubstringMatch simulators deviceName platformVersion

/-- The device-resolution portion of `createSession` (simulator-manager.ts
lines 126-154): a request that has UDID shape and names an available
enumerated device binds to that device directly; otherwise the tier
cascade runs.  `none` models the `No matching simulator found` throw. -/
def createSessionResolve (simulators : List SimulatorInfo) (deviceName : String)
    (platformVersion : Option String) : Option SimulatorInfo :=
  if udidSyntax deviceName then
    match simulators.find? fun sim => sim.udid == deviceName with
    | some m =>
      if m.isAvailable then some m
      else findMatchingSimulator simulators deviceName platformVersion
    | none => findMatchingSimulator simulators deviceName platformVersion
  else findMatchingSimulator simulators deviceName platformVersion

/-- Embedding of `getSession` (simulator-manager.ts lines 263-270) acting
on the session registry (the `Map` keyed by session id, rendered as a list
with at most one entry per id): an unknown id returns the `undefined`
sentinel and leaves the registry untouched; a known id has its
`lastUsedAt` field set to the current time, and the updated record is both
returned and stored. -/
def getSession (sessions : List SimulatorSession) (sessionId : String) (now : Nat) :
    Option SimulatorSession × List SimulatorSession :=
  match sessions.find? fun s => s.id == sessionId with
  | none => (none, sessions)
  | some s =>
    (some (SimulatorSession.mk s.id s.udid s.deviceName s.platformVersion s.createdAt now),
      sessions.map fun t =>
        if t.id == sessionId then
          SimulatorSession.mk t.id t.udid t.deviceName t.platformVersion t.createdAt now
        else t)

/-- Embedding of `getAllSessions` (simulator-manager.ts lines 275-277):
`Array.from(this.sessions.values())`. -/
def getAllSessions (sessions : List SimulatorSession) : List SimulatorSession :=
  sessions

/-- Embedding of `verifySimulatorShutdown` (simulator-manager.ts lines
408-427), with the booted-device enumeration it performs passed in
explicitly: the device is verified shut down exactly when its UDID is
absent from the booted list. -/
def verifySimulatorShutdown (booted : List BootedSimulator) (udid : String) : Bool :=
  !(booted.any fun sim => sim.udid == udid)

/-- Externally visible action issued by `shutdownSimulator`. -/
inductive ShutdownAction where
  | apiShutdown
  | cliShutdown
  | verify
deriving DecidableEq

/-- Oracle for one `shutdownSimulator` run: whether the handle's
`simulator.shutdown()` call resolves (`apiShutdownOk`), whether the
`xcrun simctl shutdown` CLI call succeeds (`cliShutdownOk` — the source
ignores this result), and the successive device enumerations. -/
structure ShutdownWorld where
  apiShutdownOk : Bool
  cliShutdownOk : Bool
  enums : List RawListing

/-- Embedding of `shutdownSimulator` (simulator-manager.ts lines 346-387),
starting its enumeration at oracle index `i0` (so the caller
`terminateSession` can account for its own enumerations).  Returns the
boolean result, the trace of external actions issued, and the next free
enumeration index.  The API shutdown attempt falls back to the direct CLI
shutdown when it throws (line 363); a failed first verification triggers
the CLI fallback and a second verification (lines 370-374); the final
verification value is returned (lines 376-382).  `directShutdownByUDID`
and `verifySimulatorShutdown` catch internally, so the outer catch of the
source is unreachable. -/
def shutdownSimulator (sessions : List SimulatorSession) (sessionId : String)
    (w : ShutdownWorld) (i0 : Nat) : Bool × List ShutdownAction × Nat :=
  match sessions.find? fun s => s.id == sessionId with
  | none => (false, [], i0)
  | some s =>
    let acts1 :=
      if w.apiShutdownOk then [ShutdownAction.apiShutdown]
      else [ShutdownAction.apiShutdown, ShutdownAction.cliShutdown]
    let v1 := verifySimulatorShutdown (bootedAt w.enums i0) s.udid
    if v1 then (true, acts1 ++ [ShutdownAction.verify], i0 + 1)
    else
      let v2 := verifySimulatorShutdown (bootedAt w.enums (i0 + 1)) s.udid
      (v2,
        acts1 ++ [ShutdownAction.verify, ShutdownAction.cliShutdown, ShutdownAction.verify],
        i0 + 2)

/-- Oracle for one `terminateSession` run: the outcome of the handle's
`stat()` call (`none` models a throw, `some st` the reported state string),
plus the fields the nested `shutdownSimulator` call needs. -/
structure TerminateWorld where
  statResult : Option String
  apiShutdownOk : Bool
  cliShutdownOk : Bool
  enums : List RawListing

/-- The `isRunning` determination of `terminateSession`
(simulator-manager.ts lines 292-302): prefer `stat()`; when it throws,
fall back to membership in the booted-devices enumeration (oracle
index 0). -/
def terminateIsRunning (w : TerminateWorld) (udid : String) : Bool :=
  match w.statResult with
  | some st => st == "Booted"
  | none => (bootedAt w.enums 0).any fun sim => sim.udid == udid

/-- Number of enumerations the `isRunning` determination consumed. -/
def terminateEnumsUsed (w : TerminateWorld) : Nat :=
  match w.statResult with
  | some _ => 0
  | none => 1

/-- Embedding of `terminateSession` (simulator-manager.ts lines 284-321):
an unknown id returns `false` and changes nothing; for a known session the
running check runs, a running device gets a `shutdownSimulator` attempt
whose result is ignored, and the record is removed from the registry
before `true` is returned.  Every call inside the `try` block catches
internally, so the `catch`-returns-`false` path is unreachable for a known
session. -/
def terminateSession (sessions : List SimulatorSession) (sessionId : String)
    (w : TerminateWorld) : Bool × List SimulatorSession :=
  match sessions.find? fun s => s.id == sessionId with
  | none => (false, sessions)
  | some s =>
    let _shutdownOutcome :=
      if terminateIsRunning w s.udid then
        (shutdownSimulator sessions sessionId
          (ShutdownWorld.mk w.apiShutdownOk w.cliShutdownOk w.enums)
          (terminateEnumsUsed w)).1
      else true
    (true, sessions.filter fun t => !(t.id == sessionId))

/-- Oracle for the per-session action operations: each field gives the
outcome of the corresponding device-handle action (`false`/`none` models a
rejected promise), as a function of the arguments the source passes on. -/
structure ActionWorld where
  runOk : Bool
  installOk : String → Bool
  launchOk : String → Bool
  terminateAppOk : String → Bool
  spawnOk : Int → Int → Bool
  screenshot : Option (List Nat)

/-- Embedding of `bootSimulator` (simulator-manager.ts lines 326-341). -/
def bootSimulator (sessions : List SimulatorSession) (sessionId : String)
    (w : ActionWorld) : Bool :=
  match sessions.find? fun s => s.id == sessionId with
  | none => false
  | some _ => w.runOk

/-- Embedding of `installApp` (simulator-manager.ts lines 432-447). -/
def installApp (sessions : List SimulatorSession) (sessionId appPath : String)
    (w : ActionWorld) : Bool :=
  match sessions.find? fun s => s.id == sessionId with
  | none => false
  | some _ => w.installOk appPath

/-- Embedding of `launchApp` (simulator-manager.ts lines 452-467). -/
def launchApp (sessions : List SimulatorSession) (sessionId bundleId : String)
    (w : ActionWorld) : Bool :=
  match sessions.find? fun s => s.id == sessionId with
  | none => false
  | some _ => w.launchOk bundleId

/-- Embedding of `terminateApp` (simulator-manager.ts lines 472-487). -/
def terminateApp (sessions : List SimulatorSession) (sessionId bundleId : String)
    (w : ActionWorld) : Bool :=
  match sessions.find? fun s => s.id == sessionId with
  | none => false
  | some _ => w.terminateAppOk bundleId

/-- Embedding of `getScreenshot` (simulator-manager.ts lines 492-507);
the captured image bytes are abstract, `none` models both the unknown
session and the rejected capture. -/
def getScreenshot (sessions : List SimulatorSession) (sessionId : String)
    (w : ActionWorld) : Option (List Nat) :=
  match sessions.find? fun s => s.id == sessionId with
  | none => none
  | some _ => w.screenshot

/-- Embedding of `performTap` (simulator-manager.ts lines 512-529):
delegates to `spawnProcess` with the coordinates. -/
def performTap (sessions : List SimulatorSession) (sessionId : String) (x y : Int)
    (w : ActionWorld) : Bool :=
  match sessions.find? fun s => s.id == sessionId with
  | none => false
  | some _ => w.spawnOk x y

/-- Externally visible action issued by `bootByUDID`. -/
inductive BootAction where
  | getSimHandle
  | run
deriving DecidableEq

/-- Oracle for one `bootByUDID` run: whether `getSimulator(udid)` resolves,
whether the handle's `run()` resolves, and the successive device
enumerations (index 0 for the existence check, index 1 for the
already-booted check, index 2 for the post-boot check). -/
structure BootWorld where
  getSimulatorOk : Bool
  runOk : Bool
  enums : List RawListing

/-- Embedding of `bootByUDID` (simulator-manager.ts lines 596-641): fail
when no enumerated device has the UDID; report success without any handle
action when the UDID is already in the booted set; otherwise acquire a
handle, issue `run()`, and report whether the UDID appears in a fresh
booted enumeration after the fixed settle delay. -/
def bootByUDID (udid : String) (w : BootWorld) : Bool × List BootAction :=
  match (enumAt w.enums 0).find? fun sim => sim.udid == udid with
  | none => (false, [])
  | some _ =>
    if (bootedAt w.enums 1).any fun sim => sim.udid == udid then (true, [])
    else if !w.getSimulatorOk then (false, [BootAction.getSimHandle])
    else if !w.runOk then (false, [BootAction.getSimHandle, BootAction.run])
    else
      ((bootedAt w.enums 2).any fun sim => sim.udid == udid,
        [BootAction.getSimHandle, BootAction.run])

/-! Concrete sample data used to instantiate the theorems below. -/

/-- A sample registered session bound to device `UD-1`. -/
def sampleSession : SimulatorSession :=
  SimulatorSession.mk "sess-1" "UD-1" "iPhone 15" "iOS 17.0" 5 5

/-- A second sample session bound to device `UD-2`. -/
def sampleSession2 : SimulatorSession :=
  SimulatorSession.mk "sess-2" "UD-2" "iPad Air" "iOS 17.0" 6 6

/-- A listing in which device `UD-1` is booted. -/
def sampleBootedListing : RawListing :=
  some [("iOS-17-0", [RawDevice.mk "UD-1" "iPhone 15" "Booted" (some true)])]

/-- A listing with no devices at all. -/
def sampleEmptyListing : RawListing :=
  some []

/-- An action world in which every device-handle action fails. -/
def sampleFailWorld : ActionWorld :=
  ActionWorld.mk false (fun _ => false) (fun _ => false) (fun _ => false)
    (fun _ _ => false) none

/-- A shutdown world where the API shutdown throws, the first verification
still sees `UD-1` booted, and the second verification sees it gone. -/
def sampleShutdownWorld : ShutdownWorld :=
  ShutdownWorld.mk false true [sampleBootedListing, sampleEmptyListing]

/-- A terminate world whose `stat()` call reports the device shut down. -/
def sampleTerminateWorld : TerminateWorld :=
  TerminateWorld.mk (some "Shutdown") true true []

/-- A terminate world where `stat()` throws, `UD-1` stays booted through
every enumeration, and both shutdown paths fail. -/
def sampleStuckTerminateWorld : TerminateWorld :=
  TerminateWorld.mk none false false
    [sampleBootedListing, sampleBootedListing, sampleBootedListing]

/-- A boot world in which `UD-1` exists and is already booted. -/
def sampleBootWorld : BootWorld :=
  BootWorld.mk true true [sampleBootedListing, sampleBootedListing]

/-- The only enumerated device of the C1 scenario: an available
`iPhone 14 Pro`, with no plain `iPhone 14` present. -/
def proDevice : SimulatorInfo :=
  SimulatorInfo.mk "U2" "iPhone 14 Pro" "Shutdown"
    "com.apple.CoreSimulator.SimRuntime.iOS-16-4" true

/-- C1: the claim says Tier-2 word-boundary matching never selects a
device named `D1 ++ " Pro"` when resolving `D1`.  The code violates this:
with only an `iPhone 14 Pro` enumerated, resolving `iPhone 14` finds no
Tier-1 exact match, and Tier 2 selects the `iPhone 14 Pro` device, because
in the regex `\biphone 14\b` the position between `4` and the following
space is a word boundary.  This theorem evaluates the embedded code at
that failing input. -/
theorem C1_tier2_selects_pro_suffix_device :
    findExactNameMatch [proDevice] "iPhone 14" none = none ∧
    findWordBoundaryMatch [proDevice] "iPhone 14" none = some proDevice ∧
    findMatchingSimulator [proDevice] "iPhone 14" none = some proDevice :=
  ⟨by decide, by decide, by decide⟩

/-- C4: a request string of UDID shape that equals the UDID of an
enumerated, available device resolves to exactly that device — for every
platform-version argument and regardless of any device name — and the
resolved device's UDID is the request string. -/
theorem C4_udid_request_short_circuits
    (simulators : List SimulatorInfo) (request : String)
    (platformVersion : Option String) (d : SimulatorInfo)
    (hsyn : udidSyntax request = true)
    (hfind : (simulators.find? fun sim => sim.udid == request) = some d)
    (havail : d.isAvailable = true) :
    createSessionResolve simulators request platformVersion = some d ∧
    d.udid = request := by
  have hud : d.udid = request := by
    have hp := List.find?_some hfind
    simpa using hp
  refine ⟨?_, hud⟩
  simp [createSessionResolve, hsyn, hfind, havail]

/-- C4 witness: the device named `Weird Name` is resolved by its UDID even
with a platform version (`99.9`) that matches no runtime and a name that
matches nothing. -/
theorem C4_witness :
    createSessionResolve
      [SimulatorInfo.mk "ABCDEF01-2345-6789-ABCD-EF0123456789" "Weird Name"
        "Shutdown" "iOS-1-0" true]
      "ABCDEF01-2345-6789-ABCD-EF0123456789" (some "99.9") =
      some (SimulatorInfo.mk "ABCDEF01-2345-6789-ABCD-EF0123456789" "Weird Name"
        "Shutdown" "iOS-1-0" true) :=
  (C4_udid_request_short_circuits
    [SimulatorInfo.mk "ABCDEF01-2345-6789-ABCD-EF0123456789" "Weird Name"
      "Shutdown" "iOS-1-0" true]
    "ABCDEF01-2345-6789-ABCD-EF0123456789" (some "99.9")
    (SimulatorInfo.mk "ABCDEF01-2345-6789-ABCD-EF0123456789" "Weird Name"
      "Shutdown" "iOS-1-0" true)
    (by decide) (by decide) (by decide)).1

/-- C5: the tiered resolution returns the first tier's hit in strict order
(exact, then word-boundary, then substring), and any resolved device is
available and satisfies the version constraint — an unavailable device is
never the result of any tier. -/
theorem C5_tiered_resolution_order_and_eligibility
    (simulators : List SimulatorInfo) (deviceName : String)
    (platformVersion : Option String) (sim : SimulatorInfo)
    (h : findMatchingSimulator simulators deviceName platformVersion = some sim) :
    sim.isAvailable = true ∧ versionMatches platformVersion sim = true ∧
    (findExactNameMatch simulators deviceName platformVersion = some sim ∨
      (findExactNameMatch simulators deviceName platformVersion = none ∧
        findWordBoundaryMatch simulators deviceName platformVersion = some sim) ∨
      (findExactNameMatch simulators deviceName platformVersion = none ∧
        findWordBoundaryMatch simulators deviceName platformVersion = none ∧
        findSubstringMatch simulators deviceName platformVersion = some sim)) := by
  unfold findMatchingSimulator at h
  cases e1 : findExactNameMatch simulators deviceName platformVersion with
  | some m =>
    rw [e1] at h
    simp only [Option.some.injEq] at h
    subst h
    have hp := List.find?_some (p := fun sim =>
      lowerList sim.name == lowerList deviceName &&
        (versionMatches platformVersion sim && sim.isAvailable))
      (by simpa [findExactNameMatch, Bool.and_assoc] using e1)
    simp only [Bool.and_eq_true] at hp
    exact ⟨hp.2.2, hp.2.1, Or.inl rfl⟩
  | none =>
    rw [e1] at h
    cases e2 : findWordBoundaryMatch simulators deviceName platformVersion with
    | some m =>
      rw [e2] at h
      simp only [Option.some.injEq] at h
      subst h
      have hp := List.find?_some (p := fun sim =>
        wordBoundaryTest (normalizeDeviceName deviceName) (lowerList sim.name) &&
          (versionMatches platformVersion sim && sim.isAvailable))
        (by simpa [findWordBoundaryMatch, Bool.and_assoc] using e2)
      simp only [Bool.and_eq_true] at hp
      exact ⟨hp.2.2, hp.2.1, Or.inr (Or.inl ⟨rfl, rfl⟩)⟩
    | none =>
      rw [e2] at h
      have hp := List.find?_some (p := fun sim =>
        strIncludes (lowerList sim.name) (lowerList deviceName) &&
          (versionMatches platformVersion sim && sim.isAvailable))
        (by simpa [findSubstringMatch, Bool.and_assoc] using h)
      simp only [Bool.and_eq_true] at hp
      exact ⟨hp.2.2, hp.2.1, Or.inr (Or.inr ⟨rfl, rfl, h⟩)⟩

/-- C5 witness: a single available `iPad Air` resolves through Tier 1, is
available, and satisfies the (absent) version constraint. -/
theorem C5_witness :
    (SimulatorInfo.mk "U1" "iPad Air" "Shutdown" "iOS-17-0" true).isAvailable = true ∧
    versionMatches none (SimulatorInfo.mk "U1" "iPad Air" "Shutdown" "iOS-17-0" true) = true ∧
    (findExactNameMatch [SimulatorInfo.mk "U1" "iPad Air" "Shutdown" "iOS-17-0" true]
        "iPad Air" none =
        some (SimulatorInfo.mk "U1" "iPad Air" "Shutdown" "iOS-17-0" true) ∨
      (findExactNameMatch [SimulatorInfo.mk "U1" "iPad Air" "Shutdown" "iOS-17-0" true]
          "iPad Air" none = none ∧
        findWordBoundaryMatch [SimulatorInfo.mk "U1" "iPad Air" "Shutdown" "iOS-17-0" true]
          "iPad Air" none =
          some (SimulatorInfo.mk "U1" "iPad Air" "Shutdown" "iOS-17-0" true)) ∨
      (findExactNameMatch [SimulatorInfo.mk "U1" "iPad Air" "Shutdown" "iOS-17-0" true]
          "iPad Air" none = none ∧
        findWordBoundaryMatch [SimulatorInfo.mk "U1" "iPad Air" "Shutdown" "iOS-17-0" true]
          "iPad Air" none = none ∧
        findSubstringMatch [SimulatorInfo.mk "U1" "iPad Air" "Shutdown" "iOS-17-0" true]
          "iPad Air" none =
          some (SimulatorInfo.mk "U1" "iPad Air" "Shutdown" "iOS-17-0" true))) :=
  C5_tiered_resolution_order_and_eligibility
    [SimulatorInfo.mk "U1" "iPad Air" "Shutdown" "iOS-17-0" true] "iPad Air" none
    (SimulatorInfo.mk "U1" "iPad Air" "Shutdown" "iOS-17-0" true) (by decide)

/-- C7: a failed or unparseable device listing yields the empty simulator
list, and consequently the empty booted list — enumeration never raises. -/
theorem C7_enumeration_failure_yields_empty :
    getAllSimulators none = [] ∧ getBootedSimulators none = [] :=
  ⟨rfl, rfl⟩

/-- C2: for an existing session, `shutdownSimulator` returns `true`
exactly when the final booted-device re-enumeration no longer contains the
session's UDID: `true` when the first verification already shows the
device gone; after a failed first verification the CLI fallback runs and
the second verification's value is returned; and whenever the API-level
shutdown throws, the CLI fallback is issued. -/
theorem C2_shutdownSimulator_result_is_final_verification
    (sessions : List SimulatorSession) (sessionId : String) (w : ShutdownWorld)
    (s : SimulatorSession)
    (hfind : (sessions.find? fun t => t.id == sessionId) = some s) :
    (verifySimulatorShutdown (bootedAt w.enums 0) s.udid = true →
      (shutdownSimulator sessions sessionId w 0).1 = true) ∧
    (verifySimulatorShutdown (bootedAt w.enums 0) s.udid = false →
      verifySimulatorShutdown (bootedAt w.enums 1) s.udid = true →
      (shutdownSimulator sessions sessionId w 0).1 = true ∧
        ShutdownAction.cliShutdown ∈ (shutdownSimulator sessions sessionId w 0).2.1) ∧
    (verifySimulatorShutdown (bootedAt w.enums 0) s.udid = false →
      verifySimulatorShutdown (bootedAt w.enums 1) s.udid = false →
      (shutdownSimulator sessions sessionId w 0).1 = false) ∧
    (w.apiShutdownOk = false →
      ShutdownAction.cliShutdown ∈ (shutdownSimulator sessions sessionId w 0).2.1) := by
  refine ⟨?_, ?_, ?_, ?_⟩
  · intro h1
    simp [shutdownSimulator, hfind, h1]
  · intro h1 h2
    constructor
    · simp [shutdownSimulator, hfind, h1, h2]
    · cases hapi : w.apiShutdownOk <;> simp [shutdownSimulator, hfind, h1, h2, hapi]
  · intro h1 h2
    simp [shutdownSimulator, hfind, h1, h2]
  · intro hapi
    cases hv : verifySimulatorShutdown (bootedAt w.enums 0) s.udid <;>
      simp [shutdownSimulator, hfind, hapi, hv]

/-- C2 witness: with session `sess-1` registered, the API shutdown
throwing, the first verification still seeing `UD-1` booted and the second
seeing it gone, `shutdownSimulator` reports `true` and the CLI fallback
was issued. -/
theorem C2_witness :
    (shutdownSimulator [sampleSession] "sess-1" sampleShutdownWorld 0).1 = true ∧
    ShutdownAction.cliShutdown ∈
      (shutdownSimulator [sampleSession] "sess-1" sampleShutdownWorld 0).2.1 :=
  (C2_shutdownSimulator_result_is_final_verification [sampleSession] "sess-1"
    sampleShutdownWorld sampleSession (by decide)).2.1 (by decide) (by decide)

/-- C3: after `terminateSession` on any session id, no session with that
id remains in the `getAllSessions` output, whatever the stat/shutdown
oracle did — the record removal does not depend on the device actually
stopping. -/
theorem C3_terminateSession_removes_record
    (sessions : List SimulatorSession) (sessionId : String) (w : TerminateWorld)
    (t : SimulatorSession)
    (ht : t ∈ getAllSessions (terminateSession sessions sessionId w).2) :
    t.id ≠ sessionId := by
  unfold getAllSessions at ht
  cases hfind : sessions.find? fun s => s.id == sessionId with
  | none =>
    simp only [terminateSession, hfind] at ht
    intro heq
    exact List.find?_eq_none.1 hfind t ht (by simp [heq])
  | some s =>
    simp only [terminateSession, hfind] at ht
    have h2 := (List.mem_filter.1 ht).2
    intro heq
    simp [heq] at h2

/-- C3 witness: terminating `sess-1` in a two-session registry leaves
`sess-2`, whose id differs from the terminated one, in the output. -/
theorem C3_witness : sampleSession2.id ≠ "sess-1" :=
  C3_terminateSession_removes_record [sampleSession, sampleSession2] "sess-1"
    sampleTerminateWorld sampleSession2 (by decide)

/-- C10: `terminateSession` returns `true` for every session id present in
the registry — including worlds where the device stays booted and both
shutdown paths fail — and returns `false`, changing nothing, only for an
unknown id. -/
theorem C10_terminateSession_true_for_known_session
    (sessions : List SimulatorSession) (sessionId : String) (w : TerminateWorld) :
    (∀ s, (sessions.find? fun t => t.id == sessionId) = some s →
      (terminateSession sessions sessionId w).1 = true) ∧
    ((sessions.find? fun t => t.id == sessionId) = none →
      terminateSession sessions sessionId w = (false, sessions)) := by
  constructor
  · intro s h
    simp [terminateSession, h]
  · intro h
    simp [terminateSession, h]

/-- C10 witness: `sess-1` is terminated with `true` even though its device
stays booted through every enumeration and both shutdown paths fail, and
an unknown id yields `false` with the registry untouched. -/
theorem C10_witness :
    (terminateSession [sampleSession] "sess-1" sampleStuckTerminateWorld).1 = true ∧
    terminateSession [] "sess-1" sampleStuckTerminateWorld = (false, []) :=
  ⟨(C10_terminateSession_true_for_known_session [sampleSession] "sess-1"
      sampleStuckTerminateWorld).1 sampleSession (by decide),
    (C10_terminateSession_true_for_known_session [] "sess-1"
      sampleStuckTerminateWorld).2 (by decide)⟩

/-- C6: the per-session action operations are total functions into
`Bool`/`Option` — an unknown session id yields `false` (`none` for the
screenshot), and a failing device-handle action likewise yields
`false`/`none`; no case raises. -/
theorem C6_actions_never_raise
    (sessions : List SimulatorSession) (sessionId appPath bundleId : String)
    (x y : Int) (w : ActionWorld) :
    ((sessions.find? fun s => s.id == sessionId) = none →
      installApp sessions sessionId appPath w = false ∧
      launchApp sessions sessionId bundleId w = false ∧
      terminateApp sessions sessionId bundleId w = false ∧
      performTap sessions sessionId x y w = false ∧
      getScreenshot sessions sessionId w = none ∧
      bootSimulator sessions sessionId w = false) ∧
    (∀ s, (sessions.find? fun t => t.id == sessionId) = some s →
      (w.installOk appPath = false → installApp sessions sessionId appPath w = false) ∧
      (w.launchOk bundleId = false → launchApp sessions sessionId bundleId w = false) ∧
      (w.terminateAppOk bundleId = false →
        terminateApp sessions sessionId bundleId w = false) ∧
      (w.spawnOk x y = false → performTap sessions sessionId x y w = false) ∧
      (w.screenshot = none → getScreenshot sessions sessionId w = none) ∧
      (w.runOk = false → bootSimulator sessions sessionId w = false)) := by
  constructor
  · intro h
    simp [installApp, launchApp, terminateApp, performTap, getScreenshot,
      bootSimulator, h]
  · intro s h
    refine ⟨?_, ?_, ?_, ?_, ?_, ?_⟩ <;> intro hw <;>
      simp [installApp, launchApp, terminateApp, performTap, getScreenshot,
        bootSimulator, h, hw]

/-- C6 witness: an unknown session id yields `false` from `installApp`,
and a known session whose screenshot capture rejects yields `none`. -/
theorem C6_witness :
    installApp [] "sess-1" "/tmp/a.app" sampleFailWorld = false ∧
    getScreenshot [sampleSession] "sess-1" sampleFailWorld = none :=
  ⟨((C6_actions_never_raise [] "sess-1" "/tmp/a.app" "com.x" 0 0
      sampleFailWorld).1 (by decide)).1,
    ((C6_actions_never_raise [sampleSession] "sess-1" "/tmp/a.app" "com.x" 0 0
      sampleFailWorld).2 sampleSession (by decide)).2.2.2.2.1 rfl⟩

/-- C8: a UDID that the device enumeration contains and that is already in
the booted set makes `bootByUDID` return `true` while issuing no handle
action at all — in particular no `run` action. -/
theorem C8_bootByUDID_already_booted
    (udid : String) (w : BootWorld) (d : SimulatorInfo)
    (hfound : ((enumAt w.enums 0).find? fun sim => sim.udid == udid) = some d)
    (hbooted : ((bootedAt w.enums 1).any fun sim => sim.udid == udid) = true) :
    bootByUDID udid w = (true, []) ∧
    BootAction.run ∉ (bootByUDID udid w).2 := by
  have h : bootByUDID udid w = (true, []) := by
    simp [bootByUDID, hfound, hbooted]
  exact ⟨h, by simp [h]⟩

/-- C8 witness: `UD-1` is enumerated and already booted, so `bootByUDID`
returns `true` with an empty action trace. -/
theorem C8_witness : bootByUDID "UD-1" sampleBootWorld = (true, []) :=
  (C8_bootByUDID_already_booted "UD-1" sampleBootWorld
    (SimulatorInfo.mk "UD-1" "iPhone 15" "Booted" "iOS-17-0" true)
    (by decide) (by decide)).1

/-- C9: `getSession` on an unknown id returns the `undefined` sentinel and
leaves the registry unchanged; on a known id it returns the stored record
with only `lastUsedAt` refreshed, stores that same refreshed record at the
session's position, and leaves every other session untouched. -/
theorem C9_getSession_frame
    (sessions : List SimulatorSession) (sessionId : String) (now : Nat) :
    ((sessions.find? fun s => s.id == sessionId) = none →
      getSession sessions sessionId now = (none, sessions)) ∧
    (∀ s, (sessions.find? fun t => t.id == sessionId) = some s →
      (getSession sessions sessionId now).1 =
        some (SimulatorSession.mk s.id s.udid s.deviceName s.platformVersion
          s.createdAt now)) ∧
    (∀ i t, sessions.get? i = some t → t.id ≠ sessionId →
      ((getSession sessions sessionId now).2).get? i = some t) ∧
    (∀ i t, sessions.get? i = some t → t.id = sessionId →
      ((getSession sessions sessionId now).2).get? i =
        some (SimulatorSession.mk t.id t.udid t.deviceName t.platformVersion
          t.createdAt now)) := by
  refine ⟨?_, ?_, ?_, ?_⟩
  · intro h
    simp [getSession, h]
  · intro s h
    simp [getSession, h]
  · intro i t hget hne
    cases hfind : sessions.find? fun s => s.id == sessionId with
    | none =>
      simp only [getSession, hfind]
      exact hget
    | some s =>
      simp only [getSession, hfind, List.get?_map, hget, Option.map_some']
      simp [hne]
  · intro i t hget heq
    cases hfind : sessions.find? fun s => s.id == sessionId with
    | none =>
      exact absurd (by simp [heq])
        (List.find?_eq_none.1 hfind t (List.get?_mem hget))
    | some s =>
      simp only [getSession, hfind, List.get?_map, hget, Option.map_some']
      simp [heq]

/-- C9 witness: looking up `sess-1` at time 42 in a two-session registry
returns its record with `lastUsedAt` set to 42 and leaves `sess-2`
untouched at its position. -/
theorem C9_witness :
    (getSession [sampleSession, sampleSession2] "sess-1" 42).1 =
      some (SimulatorSession.mk sampleSession.id sampleSession.udid
        sampleSession.deviceName sampleSession.platformVersion
        sampleSession.createdAt 42) ∧
    ((getSession [sampleSession, sampleSession2] "sess-1" 42).2).get? 1 =
      some sampleSession2 :=
  ⟨(C9_getSession_frame [sampleSession, sampleSession2] "sess-1" 42).2.1
      sampleSession (by decide),
    (C9_getSession_frame [sampleSession, sampleSession2] "sess-1" 42).2.2.1
      1 sampleSession2 (by decide) (by decide)⟩

end SimMgr
